import Mathlib

/-
Shallow embedding of src/backend/simple-server.py, the single source file of
the black-cross repository: a mock HTTP server with a BlackCrossHandler class
providing do_GET, do_POST and do_OPTIONS methods.

Modelling conventions:
- JSON values are the inductive Json; the dict produced by json.loads for a
  JSON object is Json.obj with its (unique-key) item list in insertion order.
- A response is the status code, the list of headers sent with send_header
  (send_error is modelled as sending the default html error headers), and the
  body written to wfile.
- Outcomes of Python library calls on request data are part of the request
  model: the json.loads outcome for the body bytes (DecodeResult), and the
  int(self.headers[Content-Length]) outcome (Except String Int; a missing
  header gives None and int(None) raises TypeError, a non-integer header
  string raises ValueError).
- urlparse(self.path).path is modelled by urlparsePath, including the
  ValueError paths of urllib.parse.urlsplit (Python 3.11): a netloc with an
  unmatched bracket, an invalid bracketed host (checked against the ipaddress
  module IPv4/IPv6/IPvFuture grammars), and a netloc containing a character
  that expands to a URL delimiter under NFKC normalization (a fixed table of
  19 code points, see nfkcDelimExpanding).
- A handler that lets an exception escape (nothing in this file catches it)
  is modelled as Except.error carrying the exception text. Exception texts
  are modelled without the quoted-repr parts of the Python messages.
-/

namespace BlackCross

inductive Json where
  | null
  | bool (b : Bool)
  | num (n : Int)
  | str (s : String)
  | arr (xs : List Json)
  | obj (fields : List (String × Json))

inductive Body where
  | empty
  | json (j : Json)
  | errorPage (message : String)

structure Response where
  status : Nat
  headers : List (String × String)
  body : Body

/-- Outcome of json.loads(post_data.decode()): the decoded value, or the text
of the exception it raised on malformed input. -/
inductive DecodeResult where
  | ok (j : Json)
  | err (message : String)

inductive Method where
  | get
  | post
  | options

/-- An incoming HTTP request as the handler sees it: the method, the raw
request target (self.path), the outcome of int(self.headers[Content-Length])
— Except.ok for a header that int() parses, Except.error with the exception
text when the header is missing (int(None) raises TypeError) or does not
parse (ValueError) — and the json.loads outcome for the body bytes. For GET
and OPTIONS the last two fields are unused. -/
structure Request where
  method : Method
  rawPath : String
  contentLength : Except String Int
  body : DecodeResult

/-- The fixed list of module names from do_GET. -/
def modules : List String :=
  ["threat-intelligence", "incident-response", "vulnerability-management",
   "ioc-management", "threat-actors", "threat-feeds", "siem",
   "threat-hunting", "risk-assessment", "collaboration", "reporting",
   "malware-analysis", "dark-web", "compliance", "automation"]

/-- Characters allowed in a URL scheme (urllib.parse.scheme_chars). -/
def isSchemeChar (c : Char) : Bool :=
  c.isAlphanum || c = '+' || c = '-' || c = '.'

/-- Scheme removal step of urllib.parse.urlsplit: if the string has a colon
at a positive index and everything before it starts with an ASCII letter and
consists of scheme characters, split off the lowercased scheme and the
colon. Returns the scheme (empty when none) and the remaining url. -/
def splitScheme (s : List Char) : List Char × List Char :=
  let pre := s.takeWhile (fun c => c ≠ ':')
  let headAlpha : Bool := match pre with | c :: _ => c.isAlpha | [] => false
  if pre.length < s.length ∧ pre ≠ [] ∧ headAlpha ∧ pre.all isSchemeChar then
    (pre.map Char.toLower, s.drop (pre.length + 1))
  else ([], s)

/-- urllib.parse.uses_params: the schemes (the empty scheme included) whose
urls have their params component split off by urlparse. -/
def usesParams : List String :=
  ["", "ftp", "hdl", "prospero", "http", "imap", "https", "shttp", "rtsp",
   "rtspu", "sip", "sips", "mms", "sftp", "tel"]

/-- ASCII hex digits, the _HEX_DIGITS set of the ipaddress module. -/
def isHexDigitChar (c : Char) : Bool :=
  c.isDigit || ('a' ≤ c ∧ c ≤ 'f') || ('A' ≤ c ∧ c ≤ 'F')

/-- ipaddress._BaseV4._parse_octet: nonempty, ASCII digits only, at most 3
characters, no leading zero unless the octet is exactly 0, value at most
255. -/
def octetOk (s : List Char) : Bool :=
  s ≠ [] ∧ s.all Char.isDigit ∧ s.length ≤ 3 ∧
  ¬ (s ≠ ['0'] ∧ s.headD ' ' = '0') ∧
  s.foldl (fun a c => a * 10 + (c.toNat - 48)) 0 ≤ 255

/-- ipaddress._BaseV4._ip_int_from_string: exactly four octets separated by
dots, each passing the octet check. -/
def isValidIPv4 (s : List Char) : Bool :=
  (s.splitOn '.').length = 4 ∧ (s.splitOn '.').all octetOk

/-- ipaddress._BaseV6._parse_hextet: nonempty, ASCII hex digits only, at most
4 characters. -/
def parseHextetOk (s : List Char) : Bool :=
  s ≠ [] ∧ s.all isHexDigitChar ∧ s.length ≤ 4

/-- The hextet-structure phase of ipaddress._BaseV6._ip_int_from_string on
the colon-separated parts (an IPv4 suffix already converted): at most one
empty interior part (the double-colon skip); an empty endpoint only next to
the skip; without a skip exactly 8 nonempty parts; at most 7 explicit parts
beside a skip; every parsed part a valid hextet. -/
def ipv6PartsOk (parts : List (List Char)) : Bool :=
  let n := parts.length
  let interior := (parts.drop 1).dropLast
  let empties := interior.countP (fun p => p.isEmpty)
  if 1 < empties then false
  else if empties = 1 then
    let skip := (interior.findIdx (fun p => p.isEmpty)) + 1
    let headEmpty := (parts.headD []).isEmpty
    let lastEmpty := (parts.getLastD []).isEmpty
    let hi := if headEmpty then skip - 1 else skip
    let lo0 := n - skip - 1
    let lo := if lastEmpty then lo0 - 1 else lo0
    if headEmpty ∧ hi ≠ 0 then false
    else if lastEmpty ∧ lo ≠ 0 then false
    else if 8 - (hi + lo) < 1 then false
    else (parts.take hi).all parseHextetOk ∧ (parts.drop (n - lo)).all parseHextetOk
  else
    n = 8 ∧ ¬ (parts.headD []).isEmpty ∧ ¬ (parts.getLastD []).isEmpty ∧
    parts.all parseHextetOk

/-- ipaddress.IPv6Address._split_scope_id: no percent means no scope; with a
percent, the scope id after the first percent must be nonempty and contain no
further percent, and the address part is what precedes it. -/
def splitScopeAddr (s : List Char) : Option (List Char) :=
  let addr := s.takeWhile (fun c => c ≠ '%')
  if addr.length = s.length then some s
  else
    let scope := s.drop (addr.length + 1)
    if scope.isEmpty || scope.contains '%' then none
    else some addr

/-- ipaddress._BaseV6._ip_int_from_string validity: nonempty, at least 3
colon-separated parts, a dotted last part must be a valid IPv4 address (then
counted as two hextets), at most 9 parts, and the hextet structure check. -/
def isValidIPv6Core (s : List Char) : Bool :=
  if s.isEmpty then false
  else
    let parts0 := s.splitOn ':'
    if parts0.length < 3 then false
    else
      let lastPart := parts0.getLastD []
      if lastPart.contains '.' then
        if isValidIPv4 lastPart then
          let parts := parts0.dropLast ++ [['0'], ['0']]
          if 9 < parts.length then false else ipv6PartsOk parts
        else false
      else
        if 9 < parts0.length then false else ipv6PartsOk parts0

/-- ipaddress.IPv6Address on a string: no slash, a well-formed optional scope
id, and a valid address part. -/
def isValidIPv6 (s : List Char) : Bool :=
  if s.contains '/' then false
  else
    match splitScopeAddr s with
    | none => false
    | some addr => isValidIPv6Core addr

/-- The regex of urllib.parse._check_bracketed_host for hosts starting with a
lowercase v: one or more ASCII hex digits, a dot, then at least one more
character (hex digits never match the dot, so the backtracking regex is
equivalent to this greedy check). -/
def ipvFutureOk (rest : List Char) : Bool :=
  let hex := rest.takeWhile isHexDigitChar
  if hex.isEmpty then false
  else
    match rest.drop hex.length with
    | '.' :: t => !t.isEmpty
    | _ => false

/-- urllib.parse._check_bracketed_host: a host starting with a lowercase v is
checked as IPvFuture; otherwise ipaddress.ip_address must yield an IPv6
address (a valid IPv4 address is rejected as bracketed, anything else is not
an IP address at all). -/
def checkBracketedHost (h : List Char) : Except String Unit :=
  match h with
  | 'v' :: rest =>
    if ipvFutureOk rest then Except.ok () else Except.error "IPvFuture address is invalid"
  | _ =>
    if isValidIPv4 h then Except.error "An IPv4 address cannot be in brackets"
    else if isValidIPv6 h then Except.ok ()
    else Except.error "does not appear to be an IPv4 or IPv6 address"

/-- Netloc step of urllib.parse.urlsplit: after the scheme, a leading double
slash introduces the network location, which extends to the next slash,
question mark or hash. A netloc with a bracket but not its partner raises
ValueError Invalid IPv6 URL; with both brackets, the text between the first
opening bracket and the next closing bracket must be a valid bracketed
host. Returns the netloc and the remaining url. -/
def splitNetloc : List Char → Except String (List Char × List Char)
  | '/' :: '/' :: rest =>
    let netloc := rest.takeWhile (fun c => c ≠ '/' ∧ c ≠ '?' ∧ c ≠ '#')
    let rem := rest.drop netloc.length
    if (netloc.contains '[' ∧ ¬ netloc.contains ']') ∨
        (netloc.contains ']' ∧ ¬ netloc.contains '[') then
      Except.error "Invalid IPv6 URL"
    else if netloc.contains '[' ∧ netloc.contains ']' then
      match checkBracketedHost
          (((netloc.dropWhile (fun c => c ≠ '[')).drop 1).takeWhile (fun c => c ≠ ']')) with
      | Except.ok _ => Except.ok (netloc, rem)
      | Except.error e => Except.error e
    else Except.ok (netloc, rem)
  | s => Except.ok ([], s)

/-- Params removal step of urllib.parse.urlparse (_splitparams): cut the path
at the first semicolon that has no slash after it, i.e. the first semicolon
after the last slash. -/
def dropParams : List Char → List Char
  | [] => []
  | c :: rest =>
    if c = ';' ∧ ¬ rest.contains '/' then []
    else c :: dropParams rest

/-- The code points whose NFKC normalization contains one of the five URL
delimiters slash, question mark, hash, at, colon (Unicode 14, as shipped with
Python 3.11). urllib.parse._checknetloc raises exactly when the netloc
contains one of them: the delimiters themselves are removed before
normalization, and NFKC never produces an ASCII delimiter by combining
neighbouring characters, so the per-character check is equivalent. -/
def nfkcDelimExpanding : List Nat :=
  [0x2047, 0x2048, 0x2049, 0x2100, 0x2101, 0x2105, 0x2106, 0x2a74,
   0xfe13, 0xfe16, 0xfe55, 0xfe56, 0xfe5f, 0xfe6b,
   0xff03, 0xff0f, 0xff1a, 0xff1f, 0xff20]

/-- urllib.parse._checknetloc as a predicate: true when it does not raise. -/
def checknetlocOk (netloc : List Char) : Bool :=
  !netloc.any (fun c => nfkcDelimExpanding.contains c.toNat)

/-- The path component of urllib.parse.urlparse(s) for Python 3.11, with its
ValueError paths: the url is first stripped of leading C0-control-or-space
characters (WHATWG) and of every tab, CR and LF byte; then the scheme, the
network location (which can raise on brackets and is checked under NFKC
afterwards), the fragment (first hash) and the query (first question mark)
are split off, and the params only when the scheme is in uses_params. -/
def urlparsePath (s : String) : Except String String :=
  let cs := s.toList.dropWhile (fun c => c.toNat ≤ 32)
  let cs := cs.filter (fun c => ¬ (c = '\t' ∨ c = '\r' ∨ c = '\n'))
  let schemeUrl := splitScheme cs
  match splitNetloc schemeUrl.2 with
  | Except.error e => Except.error e
  | Except.ok (netloc, rest) =>
    let rest := rest.takeWhile (fun c => c ≠ '#')
    let rest := rest.takeWhile (fun c => c ≠ '?')
    if checknetlocOk netloc then
      Except.ok (String.mk
        (if usesParams.contains (String.mk schemeUrl.1) then dropParams rest else rest))
    else Except.error "netloc contains invalid characters under NFKC normalization"

/-- The two headers sent on every JSON response of do_GET and do_POST. -/
def jsonHeaders : List (String × String) :=
  [("Content-Type", "application/json"), ("Access-Control-Allow-Origin", "*")]

/-- BaseHTTPRequestHandler.send_error: protocol error status with the default
html error headers and an error page embedding the message. -/
def send_error (code : Nat) (message : String) : Response :=
  { status := code,
    headers := [("Content-Type", "text/html;charset=utf-8"), ("Connection", "close")],
    body := Body.errorPage message }

/-- Response body of the /health and /api/v1/health endpoints; the timestamp
argument is the datetime.now().isoformat() value of this call. -/
def healthBody (timestamp : String) : Json :=
  Json.obj
    [("status", Json.str "operational"),
     ("timestamp", Json.str timestamp),
     ("services", Json.obj
        [("database", Json.str "connected"),
         ("redis", Json.str "connected")])]

/-- Response body of the module list endpoint for a given module name. -/
def moduleListBody (m : String) : Json :=
  Json.obj
    [("success", Json.bool true),
     ("data", Json.arr []),
     ("total", Json.num 0),
     ("module", Json.str m)]

/-- Response body of the per-module health endpoint. -/
def moduleHealthBody (m : String) : Json :=
  Json.obj
    [("module", Json.str m),
     ("status", Json.str "operational"),
     ("version", Json.str "1.0.0")]

/-- The for-loop over modules in do_GET: each module is tried against its
list pattern (with and without trailing slash) and its health pattern; after
the loop, send_error(404) with the default Not Found message. -/
def moduleLoop (path : String) : List String → Response
  | [] => send_error 404 "Not Found"
  | m :: rest =>
    if path = "/api/v1/" ++ m ∨ path = "/api/v1/" ++ m ++ "/" then
      { status := 200, headers := jsonHeaders, body := Body.json (moduleListBody m) }
    else if path = "/api/v1/" ++ m ++ "/health" then
      { status := 200, headers := jsonHeaders, body := Body.json (moduleHealthBody m) }
    else moduleLoop path rest

/-- do_GET of BlackCrossHandler. urlparse(self.path) runs first and its
ValueError escapes the handler uncaught (Except.error); on a parsed path the
handler always answers. The timestamp argument stands for the value
datetime.now().isoformat() produces during this call. -/
def do_GET (rawPath : String) (timestamp : String) : Except String Response :=
  match urlparsePath rawPath with
  | Except.error e => Except.error e
  | Except.ok path =>
    Except.ok
      (if path = "/health" ∨ path = "/api/v1/health" then
        { status := 200, headers := jsonHeaders, body := Body.json (healthBody timestamp) }
      else
        moduleLoop path modules)

/-- Python type name of a decoded JSON value, used in the AttributeError
text. -/
def Json.typeName : Json → String
  | Json.null => "NoneType"
  | Json.bool _ => "bool"
  | Json.num _ => "int"
  | Json.str _ => "str"
  | Json.arr _ => "list"
  | Json.obj _ => "dict"

def Json.isObj : Json → Bool
  | Json.obj _ => true
  | _ => false

/-- dict.get(key, default): the value stored at the key, or the default when
the key is absent. The obj field list is the items of the decoded dict, whose
keys are unique. -/
def dictGetD (fields : List (String × Json)) (key : String) (default : Json) : Json :=
  match fields.find? (fun p => p.1 = key) with
  | some p => p.2
  | none => default

/-- data.get(key, default) for an arbitrary decoded value: only a dict has a
get attribute; every other type raises AttributeError (exception text
modelled without the quote characters). -/
def Json.pyGet (j : Json) (key : String) (default : Json) : Except String Json :=
  match j with
  | Json.obj fields => Except.ok (dictGetD fields key default)
  | _ => Except.error (Json.typeName j ++ " object has no attribute get")

/-- Python equality of a decoded JSON value against a str literal: equal only
when the value is that string. -/
def Json.eqStr : Json → String → Bool
  | Json.str s, t => s = t
  | _, _ => false

/-- Login response body on matching credentials. -/
def loginSuccessJson : Json :=
  Json.obj
    [("success", Json.bool true),
     ("token", Json.str "mock-jwt-token"),
     ("user", Json.obj
        [("id", Json.str "1"),
         ("email", Json.str "admin@blackcross.com"),
         ("role", Json.str "admin")])]

/-- Login response body on non-matching credentials. -/
def loginFailJson : Json :=
  Json.obj
    [("success", Json.bool false),
     ("error", Json.str "Invalid credentials")]

/-- do_POST of BlackCrossHandler. The raw self.path (query string included)
is compared against the login route. int(self.headers[Content-Length]) runs
outside the try block, so its exception — the Except.error case of the
request contentLength field — escapes the handler (Except.error result).
Inside the try block, a json.loads failure or an AttributeError from .get on
a non-dict is caught and answered with send_error(400, ...); otherwise the
response is 200 with the success body exactly when email and password match
the hardcoded literals, the fail body otherwise. -/
def do_POST (req : Request) : Except String Response :=
  if req.rawPath = "/api/v1/auth/login" then
    match req.contentLength with
    | Except.error e => Except.error e
    | Except.ok _ =>
      match req.body with
      | DecodeResult.err msg => Except.ok (send_error 400 ("Bad Request: " ++ msg))
      | DecodeResult.ok data =>
        match data.pyGet "email" (Json.str ""), data.pyGet "password" (Json.str "") with
        | Except.error e, _ => Except.ok (send_error 400 ("Bad Request: " ++ e))
        | _, Except.error e => Except.ok (send_error 400 ("Bad Request: " ++ e))
        | Except.ok email, Except.ok password =>
          Except.ok
            { status := 200,
              headers := jsonHeaders,
              body := Body.json
                (if email.eqStr "admin@blackcross.com" ∧ password.eqStr "admin" then
                  loginSuccessJson
                else
                  loginFailJson) }
  else
    Except.ok (send_error 404 "Not Found")

/-- do_OPTIONS of BlackCrossHandler: 200 with the three CORS headers and no
body, for every request. -/
def do_OPTIONS : Response :=
  { status := 200,
    headers :=
      [("Access-Control-Allow-Origin", "*"),
       ("Access-Control-Allow-Methods", "GET, POST, OPTIONS"),
       ("Access-Control-Allow-Headers", "Content-Type")],
    body := Body.empty }

/-- Dispatch of a request to the handler method for its HTTP method. The
timestamp is the datetime.now().isoformat() value observed if do_GET runs.
Except.error is a handler letting an exception escape. -/
def handle (req : Request) (timestamp : String) : Except String Response :=
  match req.method with
  | Method.get => do_GET req.rawPath timestamp
  | Method.post => do_POST req
  | Method.options => Except.ok do_OPTIONS

/-- Erase the top-level timestamp field of a JSON object response body; used
to state that two responses agree everywhere except that field. -/
def Response.eraseTimestamp (r : Response) : Response :=
  { r with
    body :=
      match r.body with
      | Body.json (Json.obj fs) => Body.json (Json.obj (fs.filter (fun p => p.1 ≠ "timestamp")))
      | b => b }

/-- The GET paths that are routed to a 200 response: the two health paths and
the three patterns of each module. -/
def routedGetPaths : List String :=
  ["/health", "/api/v1/health"] ++
    modules.flatMap (fun m => ["/api/v1/" ++ m, "/api/v1/" ++ m ++ "/", "/api/v1/" ++ m ++ "/health"])

/-- Removal of the query string alone from a raw path, exactly as the claim
about unmatched GET routes words it; compared against urlparsePath, which is
what the code computes. -/
def stripQuery (s : String) : String :=
  String.mk (s.toList.takeWhile (fun c => c ≠ '?'))

/-! Helper lemmas shared by the claim theorems. -/

theorem Json.eqStr_iff (j : Json) (s : String) : j.eqStr s = true ↔ j = Json.str s := by
  cases j <;> simp [Json.eqStr]

theorem loginSuccess_ne_fail : loginSuccessJson ≠ loginFailJson := by
  simp [loginSuccessJson, loginFailJson]

theorem moduleLoop_headers_or_404 (p : String) (ms : List String) :
    (moduleLoop p ms).headers = jsonHeaders ∨ moduleLoop p ms = send_error 404 "Not Found" := by
  induction ms with
  | nil => exact Or.inr rfl
  | cons m rest ih =>
    simp only [moduleLoop]
    split
    · exact Or.inl rfl
    · split
      · exact Or.inl rfl
      · exact ih

theorem moduleLoop_404 (p : String) (ms : List String)
    (h : ∀ m ∈ ms, p ≠ "/api/v1/" ++ m ∧ p ≠ "/api/v1/" ++ m ++ "/" ∧
      p ≠ "/api/v1/" ++ m ++ "/health") :
    moduleLoop p ms = send_error 404 "Not Found" := by
  induction ms with
  | nil => rfl
  | cons m rest ih =>
    obtain ⟨h1, h2, h3⟩ := h m (List.mem_cons_self m rest)
    simp only [moduleLoop]
    rw [if_neg ?_, if_neg h3]
    · exact ih (fun x hx => h x (List.mem_cons_of_mem m hx))
    · rintro (hc | hc)
      · exact h1 hc
      · exact h2 hc

theorem do_GET_ok_headers (p ts : String) (r : Response) (h : do_GET p ts = Except.ok r)
    (h200 : r.status = 200) : r.headers = jsonHeaders := by
  simp only [do_GET] at h
  cases hu : urlparsePath p with
  | error e => rw [hu] at h; exact absurd h (by simp)
  | ok path =>
    rw [hu] at h
    have hr : r = if path = "/health" ∨ path = "/api/v1/health" then
        { status := 200, headers := jsonHeaders, body := Body.json (healthBody ts) }
      else moduleLoop path modules := (Except.ok.inj h).symm
    by_cases hc : path = "/health" ∨ path = "/api/v1/health"
    · rw [hr, if_pos hc]
    · rw [if_neg hc] at hr
      rcases moduleLoop_headers_or_404 path modules with hj | he
      · rw [hr]; exact hj
      · rw [he] at hr
        rw [hr] at h200
        exact absurd h200 (by decide : ¬ (404 : Nat) = 200)

/-- C1: a POST to /api/v1/auth/login whose body decodes as a JSON object (and
whose Content-Length header int() accepts, so that the handler reaches the
body) is answered with status 200; the body is the success payload with the
mock token if and only if the email field equals admin@blackcross.com and the
password field equals admin, missing fields defaulting to the empty string,
and otherwise the body is the Invalid credentials payload. -/
theorem login_object_ok (cl : Except String Int) (fields : List (String × Json)) (ts : String)
    (h : ∃ n, cl = Except.ok n) :
    ∃ r, handle ⟨Method.post, "/api/v1/auth/login", cl, DecodeResult.ok (Json.obj fields)⟩ ts
        = Except.ok r ∧
      r.status = 200 ∧
      (r.body = Body.json loginSuccessJson ↔
        (dictGetD fields "email" (Json.str "") = Json.str "admin@blackcross.com" ∧
         dictGetD fields "password" (Json.str "") = Json.str "admin")) ∧
      (¬ (dictGetD fields "email" (Json.str "") = Json.str "admin@blackcross.com" ∧
          dictGetD fields "password" (Json.str "") = Json.str "admin") →
        r.body = Body.json loginFailJson) := by
  obtain ⟨n, hn⟩ := h
  subst hn
  have hh : handle ⟨Method.post, "/api/v1/auth/login", Except.ok n,
        DecodeResult.ok (Json.obj fields)⟩ ts
      = Except.ok
        { status := 200, headers := jsonHeaders,
          body := Body.json
            (if (dictGetD fields "email" (Json.str "")).eqStr "admin@blackcross.com"
                ∧ (dictGetD fields "password" (Json.str "")).eqStr "admin"
             then loginSuccessJson else loginFailJson) } := by
    simp only [handle, do_POST, Json.pyGet]
    rfl
  have hiff : ((dictGetD fields "email" (Json.str "")).eqStr "admin@blackcross.com" = true ∧
      (dictGetD fields "password" (Json.str "")).eqStr "admin" = true) ↔
      (dictGetD fields "email" (Json.str "") = Json.str "admin@blackcross.com" ∧
       dictGetD fields "password" (Json.str "") = Json.str "admin") :=
    and_congr (Json.eqStr_iff _ _) (Json.eqStr_iff _ _)
  by_cases hc : dictGetD fields "email" (Json.str "") = Json.str "admin@blackcross.com" ∧
      dictGetD fields "password" (Json.str "") = Json.str "admin"
  · refine ⟨_, hh, rfl, ?_, ?_⟩
    · rw [if_pos (hiff.mpr hc)]
      exact iff_of_true rfl hc
    · intro hnc; exact absurd hc hnc
  · refine ⟨_, hh, rfl, ?_, ?_⟩
    · rw [if_neg (fun hcc => hc (hiff.mp hcc))]
      exact iff_of_false (fun hb => loginSuccess_ne_fail (Body.json.inj hb).symm) hc
    · intro _
      rw [if_neg (fun hcc => hc (hiff.mp hcc))]

/-- Witness for C1 at the admin credentials with Content-Length 2. -/
theorem login_object_ok_witness :
    ∃ r, handle ⟨Method.post, "/api/v1/auth/login", Except.ok 2,
        DecodeResult.ok (Json.obj
          [("email", Json.str "admin@blackcross.com"), ("password", Json.str "admin")])⟩ "t"
        = Except.ok r ∧
      r.status = 200 ∧
      (r.body = Body.json loginSuccessJson ↔
        (dictGetD [("email", Json.str "admin@blackcross.com"), ("password", Json.str "admin")]
            "email" (Json.str "") = Json.str "admin@blackcross.com" ∧
         dictGetD [("email", Json.str "admin@blackcross.com"), ("password", Json.str "admin")]
            "password" (Json.str "") = Json.str "admin")) ∧
      (¬ (dictGetD [("email", Json.str "admin@blackcross.com"), ("password", Json.str "admin")]
            "email" (Json.str "") = Json.str "admin@blackcross.com" ∧
          dictGetD [("email", Json.str "admin@blackcross.com"), ("password", Json.str "admin")]
            "password" (Json.str "") = Json.str "admin") →
        r.body = Body.json loginFailJson) :=
  login_object_ok (Except.ok 2)
    [("email", Json.str "admin@blackcross.com"), ("password", Json.str "admin")] "t" ⟨2, rfl⟩

/-- C2: for every name in the fixed 15-element module list, a GET whose path
is /api/v1/[module] or /api/v1/[module]/ is answered with status 200 and body
exactly the object with success true, empty data, total 0 and the module
name. -/
theorem module_endpoint_ok (m : String) (hm : m ∈ modules) (ts : String) :
    do_GET ("/api/v1/" ++ m) ts =
      Except.ok { status := 200, headers := jsonHeaders, body := Body.json (moduleListBody m) } ∧
    do_GET ("/api/v1/" ++ m ++ "/") ts =
      Except.ok { status := 200, headers := jsonHeaders, body := Body.json (moduleListBody m) } := by
  fin_cases hm <;> exact ⟨rfl, rfl⟩

/-- Witness for C2 at the module named siem. -/
theorem module_endpoint_ok_witness :
    do_GET ("/api/v1/" ++ "siem") "t" =
      Except.ok { status := 200, headers := jsonHeaders,
                  body := Body.json (moduleListBody "siem") } ∧
    do_GET ("/api/v1/" ++ "siem" ++ "/") "t" =
      Except.ok { status := 200, headers := jsonHeaders,
                  body := Body.json (moduleListBody "siem") } :=
  module_endpoint_ok "siem" (by decide) "t"

/-- C7: for every name in the fixed 15-element module list, a GET whose path
is /api/v1/[module]/health is answered with status 200 and body exactly the
object with the module name, status operational and version 1.0.0. -/
theorem module_health_ok (m : String) (hm : m ∈ modules) (ts : String) :
    do_GET ("/api/v1/" ++ m ++ "/health") ts =
      Except.ok { status := 200, headers := jsonHeaders,
                  body := Body.json (moduleHealthBody m) } := by
  fin_cases hm <;> rfl

/-- Witness for C7 at the module named siem. -/
theorem module_health_ok_witness :
    do_GET ("/api/v1/" ++ "siem" ++ "/health") "t" =
      Except.ok { status := 200, headers := jsonHeaders,
                  body := Body.json (moduleHealthBody "siem") } :=
  module_health_ok "siem" (by decide) "t"

/-- C5: a POST to /api/v1/auth/login whose body does not decode as JSON (and
whose Content-Length header int() accepts, so that the handler reaches the
body) is answered with status 400 and an error page embedding the raw
exception text after the Bad Request prefix. -/
theorem login_bad_json_400 (cl : Except String Int) (msg ts : String)
    (h : ∃ n, cl = Except.ok n) :
    ∃ r, handle ⟨Method.post, "/api/v1/auth/login", cl, DecodeResult.err msg⟩ ts
        = Except.ok r ∧
      r.status = 400 ∧ r.body = Body.errorPage ("Bad Request: " ++ msg) := by
  obtain ⟨n, hn⟩ := h
  subst hn
  exact ⟨send_error 400 ("Bad Request: " ++ msg), rfl, rfl, rfl⟩

/-- Witness for C5 at the json.loads exception text for an empty body. -/
theorem login_bad_json_400_witness :
    ∃ r, handle ⟨Method.post, "/api/v1/auth/login", Except.ok 2,
        DecodeResult.err "Expecting value: line 1 column 1 (char 0)"⟩ "t"
        = Except.ok r ∧
      r.status = 400 ∧
      r.body = Body.errorPage ("Bad Request: " ++ "Expecting value: line 1 column 1 (char 0)") :=
  login_bad_json_400 (Except.ok 2) "Expecting value: line 1 column 1 (char 0)" "t" ⟨2, rfl⟩

/-- C8: every OPTIONS request, whatever its path, is answered with status
200, an empty body, and the three permissive CORS headers. -/
theorem options_ok (req : Request) (ts : String) (h : req.method = Method.options) :
    handle req ts = Except.ok do_OPTIONS ∧
    do_OPTIONS.status = 200 ∧ do_OPTIONS.body = Body.empty ∧
    ("Access-Control-Allow-Origin", "*") ∈ do_OPTIONS.headers ∧
    ("Access-Control-Allow-Methods", "GET, POST, OPTIONS") ∈ do_OPTIONS.headers ∧
    ("Access-Control-Allow-Headers", "Content-Type") ∈ do_OPTIONS.headers := by
  obtain ⟨m, p, c, b⟩ := req
  cases h
  exact ⟨rfl, rfl, rfl, by decide, by decide, by decide⟩

/-- Witness for C8 at an arbitrary path. -/
theorem options_ok_witness :
    handle ⟨Method.options, "/anything", Except.ok 0, DecodeResult.err "no body"⟩ "t"
      = Except.ok do_OPTIONS ∧
    do_OPTIONS.status = 200 ∧ do_OPTIONS.body = Body.empty ∧
    ("Access-Control-Allow-Origin", "*") ∈ do_OPTIONS.headers ∧
    ("Access-Control-Allow-Methods", "GET, POST, OPTIONS") ∈ do_OPTIONS.headers ∧
    ("Access-Control-Allow-Headers", "Content-Type") ∈ do_OPTIONS.headers :=
  options_ok ⟨Method.options, "/anything", Except.ok 0, DecodeResult.err "no body"⟩ "t" rfl

/-- C10: a POST to /api/v1/auth/login whose body decodes as JSON that is not
an object (and whose Content-Length header int() accepts) is answered with
status 400 — not with a 200 carrying success false — because .get raises an
AttributeError inside the guarded block. -/
theorem login_non_object_400 (cl : Except String Int) (j : Json) (ts : String)
    (h : ∃ n, cl = Except.ok n) (hobj : j.isObj = false) :
    ∃ r, handle ⟨Method.post, "/api/v1/auth/login", cl, DecodeResult.ok j⟩ ts
        = Except.ok r ∧
      r.status = 400 ∧ r.status ≠ 200 ∧
      r.body = Body.errorPage ("Bad Request: " ++ (Json.typeName j ++ " object has no attribute get")) := by
  obtain ⟨n, hn⟩ := h
  subst hn
  have hh : handle ⟨Method.post, "/api/v1/auth/login", Except.ok n, DecodeResult.ok j⟩ ts
      = Except.ok (send_error 400
          ("Bad Request: " ++ (Json.typeName j ++ " object has no attribute get"))) := by
    cases j with
    | obj fs => exact absurd hobj (by simp [Json.isObj])
    | null => rfl
    | bool b => rfl
    | num k => rfl
    | str s => rfl
    | arr xs => rfl
  exact ⟨_, hh, rfl, (by decide : (400 : Nat) ≠ 200), rfl⟩

/-- Witness for C10 at a JSON array body. -/
theorem login_non_object_400_witness :
    ∃ r, handle ⟨Method.post, "/api/v1/auth/login", Except.ok 2,
        DecodeResult.ok (Json.arr [])⟩ "t"
        = Except.ok r ∧
      r.status = 400 ∧ r.status ≠ 200 ∧
      r.body = Body.errorPage
        ("Bad Request: " ++ (Json.typeName (Json.arr []) ++ " object has no attribute get")) :=
  login_non_object_400 (Except.ok 2) (Json.arr []) "t" ⟨2, rfl⟩ rfl

/-- C3 counterexample: a POST to /api/v1/auth/login without a Content-Length
header makes int(None) raise a TypeError outside the try block, so the
handler produces no error response for that request; the exception escapes
the handler instead. -/
theorem request_handling_raises :
    handle ⟨Method.post, "/api/v1/auth/login",
      Except.error "TypeError: int() argument must be a string, a bytes-like object or a real number, not NoneType",
      DecodeResult.err "no body"⟩ "t" =
      Except.error "TypeError: int() argument must be a string, a bytes-like object or a real number, not NoneType" :=
  rfl

/-- C3 amended: handling a request either produces a response, or the request
is a GET whose path makes urlparse raise a ValueError (line 14 of the
source), or a POST to /api/v1/auth/login whose Content-Length header is
missing or fails to parse as an integer (line 78) — the two places where an
exception escapes the handler (the http.server framework above this file
then drops the request without crashing the server). -/
theorem handle_error_only_from_parse (req : Request) (ts : String) :
    (∃ r, handle req ts = Except.ok r) ∨
    (req.method = Method.get ∧ ∃ e, urlparsePath req.rawPath = Except.error e) ∨
    (req.method = Method.post ∧ req.rawPath = "/api/v1/auth/login" ∧
      ∃ e, req.contentLength = Except.error e) := by
  obtain ⟨m, p, c, b⟩ := req
  cases m with
  | get =>
    cases hu : urlparsePath p with
    | error e => exact Or.inr (Or.inl ⟨rfl, e, rfl⟩)
    | ok path =>
      refine Or.inl ⟨if path = "/health" ∨ path = "/api/v1/health" then
          { status := 200, headers := jsonHeaders, body := Body.json (healthBody ts) }
        else moduleLoop path modules, ?_⟩
      simp only [handle, do_GET, hu]
  | options => exact Or.inl ⟨_, rfl⟩
  | post =>
    by_cases hp : p = "/api/v1/auth/login"
    · subst hp
      cases c with
      | error e => exact Or.inr (Or.inr ⟨rfl, rfl, e, rfl⟩)
      | ok k =>
        cases b with
        | err msg => exact Or.inl ⟨_, rfl⟩
        | ok data =>
          cases data with
          | obj fs => exact Or.inl ⟨_, rfl⟩
          | null => exact Or.inl ⟨_, rfl⟩
          | bool bb => exact Or.inl ⟨_, rfl⟩
          | num k2 => exact Or.inl ⟨_, rfl⟩
          | str s => exact Or.inl ⟨_, rfl⟩
          | arr xs => exact Or.inl ⟨_, rfl⟩
    · refine Or.inl ⟨send_error 404 "Not Found", ?_⟩
      simp only [handle, do_POST, if_neg hp]

/-- C4 counterexample: the response to an OPTIONS request has status 200 but
does not carry the Content-Type application/json header, so not every 200
response carries both headers. -/
theorem options_missing_content_type :
    handle ⟨Method.options, "/api/v1/health", Except.ok 0, DecodeResult.err "no body"⟩ "t"
      = Except.ok do_OPTIONS ∧
    do_OPTIONS.status = 200 ∧
    ("Content-Type", "application/json") ∉ do_OPTIONS.headers := by
  exact ⟨rfl, rfl, by decide⟩

/-- C4 amended: every 200 response carries the Access-Control-Allow-Origin *
header, and every 200 response other than the response to an OPTIONS request
also carries the Content-Type application/json header (the OPTIONS response
carries only the CORS headers). -/
theorem ok_response_headers (req : Request) (ts : String) (r : Response)
    (h : handle req ts = Except.ok r) (h200 : r.status = 200) :
    ("Access-Control-Allow-Origin", "*") ∈ r.headers ∧
    (req.method ≠ Method.options → ("Content-Type", "application/json") ∈ r.headers) := by
  have hAAO : ("Access-Control-Allow-Origin", "*") ∈ jsonHeaders := by decide
  have hCT : ("Content-Type", "application/json") ∈ jsonHeaders := by decide
  obtain ⟨m, p, c, b⟩ := req
  cases m with
  | get =>
    rw [do_GET_ok_headers p ts r h h200]
    exact ⟨hAAO, fun _ => hCT⟩
  | options =>
    have hr : r = do_OPTIONS := (Except.ok.inj h).symm
    subst hr
    exact ⟨by decide, fun hne => absurd rfl hne⟩
  | post =>
    simp only [handle] at h
    by_cases hp : p = "/api/v1/auth/login"
    · subst hp
      cases c with
      | error e => rw [do_POST, if_pos rfl] at h; exact absurd h (by simp)
      | ok k =>
        rw [do_POST, if_pos rfl] at h
        cases b with
        | err msg =>
          have hr : r = send_error 400 ("Bad Request: " ++ msg) := (Except.ok.inj h).symm
          rw [hr] at h200
          exact absurd h200 (by decide : ¬ (400 : Nat) = 200)
        | ok data =>
          cases data with
          | obj fs =>
            simp only [Json.pyGet] at h
            have hr := (Except.ok.inj h).symm
            rw [hr]
            exact ⟨hAAO, fun _ => hCT⟩
          | null =>
            have hr := (Except.ok.inj h).symm
            rw [hr] at h200
            exact absurd h200 (by decide : ¬ (400 : Nat) = 200)
          | bool bb =>
            have hr := (Except.ok.inj h).symm
            rw [hr] at h200
            exact absurd h200 (by decide : ¬ (400 : Nat) = 200)
          | num k2 =>
            have hr := (Except.ok.inj h).symm
            rw [hr] at h200
            exact absurd h200 (by decide : ¬ (400 : Nat) = 200)
          | str s =>
            have hr := (Except.ok.inj h).symm
            rw [hr] at h200
            exact absurd h200 (by decide : ¬ (400 : Nat) = 200)
          | arr xs =>
            have hr := (Except.ok.inj h).symm
            rw [hr] at h200
            exact absurd h200 (by decide : ¬ (400 : Nat) = 200)
    · rw [do_POST, if_neg hp] at h
      have hr : r = send_error 404 "Not Found" := (Except.ok.inj h).symm
      rw [hr] at h200
      exact absurd h200 (by decide : ¬ (404 : Nat) = 200)

/-- Witness for the amended C4 at a GET of /health. -/
theorem ok_response_headers_witness :
    ("Access-Control-Allow-Origin", "*") ∈
      ({ status := 200, headers := jsonHeaders,
         body := Body.json (healthBody "t") } : Response).headers ∧
    (Method.get ≠ Method.options →
      ("Content-Type", "application/json") ∈
        ({ status := 200, headers := jsonHeaders,
           body := Body.json (healthBody "t") } : Response).headers) :=
  ok_response_headers ⟨Method.get, "/health", Except.ok 0, DecodeResult.err "no body"⟩ "t"
    { status := 200, headers := jsonHeaders, body := Body.json (healthBody "t") } rfl rfl

/-- C6 counterexample: the raw path /health followed by a hash and a fragment
has no query string, so removing the query string alone leaves a path that is
none of the routed ones; yet do_GET answers 200, because urlparse also splits
the fragment off before matching. -/
theorem get_fragment_200 :
    stripQuery "/health#f" ∉ routedGetPaths ∧
    do_GET "/health#f" "t" =
      Except.ok { status := 200, headers := jsonHeaders,
                  body := Body.json (healthBody "t") } :=
  ⟨by decide, rfl⟩

/-- C6 amended: a GET whose path urlparse parses without raising to a path
component that is none of /health, /api/v1/health, or a module, module-slash
or module-health pattern over the 15 fixed names, is answered with status
404 (on paths where urlparse raises, no response is produced at all — see
the C3 carve-out); and a POST whose raw request path is not exactly
/api/v1/auth/login is answered with 404. -/
theorem unrouted_request_404 :
    (∀ path ts p, urlparsePath path = Except.ok p → p ∉ routedGetPaths →
      ∃ r, do_GET path ts = Except.ok r ∧ r.status = 404) ∧
    (∀ req ts, req.method = Method.post → req.rawPath ≠ "/api/v1/auth/login" →
      ∃ r, handle req ts = Except.ok r ∧ r.status = 404) := by
  constructor
  · intro path ts p hp hmem
    have hne : ∀ s ∈ routedGetPaths, p ≠ s := fun s hs he => hmem (he ▸ hs)
    have h1 : ¬ (p = "/health" ∨ p = "/api/v1/health") := by
      rintro (hc | hc)
      · exact hne "/health" (by decide) hc
      · exact hne "/api/v1/health" (by decide) hc
    have hmods : ∀ m ∈ modules,
        p ≠ "/api/v1/" ++ m ∧ p ≠ "/api/v1/" ++ m ++ "/" ∧
        p ≠ "/api/v1/" ++ m ++ "/health" := by
      intro m hm
      refine ⟨hne _ ?_, hne _ ?_, hne _ ?_⟩
      · exact List.mem_append_right _ (List.mem_flatMap.mpr ⟨m, hm, List.mem_cons_self _ _⟩)
      · exact List.mem_append_right _
          (List.mem_flatMap.mpr ⟨m, hm, List.mem_cons_of_mem _ (List.mem_cons_self _ _)⟩)
      · exact List.mem_append_right _
          (List.mem_flatMap.mpr
            ⟨m, hm, List.mem_cons_of_mem _ (List.mem_cons_of_mem _ (List.mem_cons_self _ _))⟩)
    refine ⟨send_error 404 "Not Found", ?_, rfl⟩
    simp only [do_GET, hp]
    rw [if_neg h1, moduleLoop_404 _ _ hmods]
  · intro req ts hm hp
    obtain ⟨m, p, c, b⟩ := req
    cases hm
    refine ⟨send_error 404 "Not Found", ?_, rfl⟩
    simp only [handle, do_POST, if_neg hp]

/-- Witness for the amended C6 at an unknown GET path and an unknown POST
path. -/
theorem unrouted_request_404_witness :
    (∃ r, do_GET "/nope" "t" = Except.ok r ∧ r.status = 404) ∧
    (∃ r, handle ⟨Method.post, "/nope", Except.ok 0, DecodeResult.err "no body"⟩ "t"
        = Except.ok r ∧ r.status = 404) :=
  ⟨unrouted_request_404.1 "/nope" "t" "/nope" rfl (by decide),
   unrouted_request_404.2 ⟨Method.post, "/nope", Except.ok 0, DecodeResult.err "no body"⟩ "t"
     rfl (by decide)⟩

/-- C9: the handlers keep no state across requests; the only input other than
the request itself is the clock read by the health endpoint. Running the
handler twice on the same request gives: identical results for POST and
OPTIONS; results identical after erasing the top-level timestamp body field
for every method; and fully identical results for a GET whose parsed path is
not a health path. -/
theorem handler_stateless (req : Request) (t1 t2 : String) :
    (req.method = Method.post ∨ req.method = Method.options → handle req t1 = handle req t2) ∧
    (handle req t1).map Response.eraseTimestamp = (handle req t2).map Response.eraseTimestamp ∧
    (req.method = Method.get →
      urlparsePath req.rawPath ≠ Except.ok "/health" →
      urlparsePath req.rawPath ≠ Except.ok "/api/v1/health" →
      handle req t1 = handle req t2) := by
  obtain ⟨m, p, c, b⟩ := req
  cases m with
  | post => exact ⟨fun _ => rfl, rfl, fun hg => Method.noConfusion hg⟩
  | options => exact ⟨fun _ => rfl, rfl, fun hg => Method.noConfusion hg⟩
  | get =>
    refine ⟨fun hpo => ?_, ?_, fun _ h1 h2 => ?_⟩
    · rcases hpo with hg | hg <;> exact Method.noConfusion hg
    · show (do_GET p t1).map Response.eraseTimestamp = (do_GET p t2).map Response.eraseTimestamp
      cases hu : urlparsePath p with
      | error e => simp only [do_GET, hu]
      | ok path =>
        simp only [do_GET, hu]
        by_cases hc : path = "/health" ∨ path = "/api/v1/health"
        · rw [if_pos hc, if_pos hc]
          rfl
        · rw [if_neg hc, if_neg hc]
    · show do_GET p t1 = do_GET p t2
      cases hu : urlparsePath p with
      | error e => simp only [do_GET, hu]
      | ok path =>
        have hn : ¬ (path = "/health" ∨ path = "/api/v1/health") := by
          rintro (hc | hc)
          · rw [hc] at hu; exact h1 hu
          · rw [hc] at hu; exact h2 hu
        simp only [do_GET, hu]
        rw [if_neg hn, if_neg hn]

/-- Witness for C9: two runs at different clock values on a module GET give
the same response. -/
theorem handler_stateless_witness :
    handle ⟨Method.get, "/api/v1/siem", Except.ok 0, DecodeResult.err "no body"⟩ "a"
      = handle ⟨Method.get, "/api/v1/siem", Except.ok 0, DecodeResult.err "no body"⟩ "b" :=
  (handler_stateless ⟨Method.get, "/api/v1/siem", Except.ok 0, DecodeResult.err "no body"⟩
      "a" "b").2.2 rfl
    (fun h => absurd (Except.ok.inj h) (by decide))
    (fun h => absurd (Except.ok.inj h) (by decide))

end BlackCross
